import Mathlib

/-!
Shallow embedding of the farchievements notification relay server
(`src/index.ts`): the bearer-token authentication middleware, the
readiness gate, multipart payload decoding and validation, Discord
embed construction with the attachment-vs-URL fallback policy, and the
error mapping of the `POST /notify-achievement` handler.

External collaborators (the Express framework, multer, `JSON.parse`,
and the discord.js client) are modelled as parameters: `parseJson`
stands for `JSON.parse` restricted to the string fields the handler
destructures, and `DiscordEnv` records the outcome the discord.js
calls (`client.channels.fetch`, `channel.send`) would produce.
-/

namespace Farchievements

/-- JavaScript `String.prototype.split(' ')` at the character level:
splits on every single space character, keeping empty segments
(so `"a  b"` yields `["a", "", "b"]` and `""` yields `[""]`). -/
def splitChars : List Char → List (List Char)
  | [] => [[]]
  | c :: cs =>
    if c = ' ' then [] :: splitChars cs
    else
      match splitChars cs with
      | [] => [[c]]
      | g :: gs => (c :: g) :: gs

/-- JavaScript `header.split(' ')` on Lean strings. -/
def jsSplitSpace (s : String) : List String :=
  (splitChars s.data).map (fun cs => String.mk cs)

/-- JavaScript `s.startsWith(p)`: `p` is a prefix of `s` (code-unit wise;
character-wise is equivalent for the ASCII prefixes this server uses). -/
def jsStartsWith (s p : String) : Bool :=
  p.data.isPrefixOf s.data

/-- JavaScript truthiness of an optional string value: `undefined`,
`null` and `""` are falsy, every non-empty string is truthy. -/
def truthy : Option String → Bool
  | none => false
  | some s => s != ""

/-- An HTTP response: status code plus the informative string of the
JSON body (`error` or `message` value). -/
structure HttpResponse where
  status : Nat
  body : String
  deriving DecidableEq, Repr

/-- `res.status(401).json(...)` for a missing/malformed Authorization
header (src/index.ts line 84). -/
def unauthorizedResponse : HttpResponse :=
  ⟨401, "Unauthorized: Missing authorization header"⟩

/-- `res.status(403).json(...)` for a mismatched secret (line 91). -/
def forbiddenResponse : HttpResponse :=
  ⟨403, "Forbidden: Invalid secret"⟩

/-- `res.status(503).json(...)` when the Discord client is not ready
(line 105). -/
def notReadyResponse : HttpResponse :=
  ⟨503, "Service Unavailable: Discord client not ready"⟩

/-- `res.status(400).json(...)` for missing or unparseable `jsonData`
(line 117). -/
def badJsonResponse : HttpResponse :=
  ⟨400, "Bad Request: Invalid or missing jsonData field."⟩

/-- `res.status(400).json(...)` for a payload missing `userName` or
`achievementName` (line 129). -/
def missingFieldsResponse : HttpResponse :=
  ⟨400, "Bad Request: Missing userName or achievementName"⟩

/-- `res.status(500).json(...)` when the fetched channel is null or not
a `TextChannel` (line 147). -/
def channelErrorResponse : HttpResponse :=
  ⟨500, "Internal Server Error: Could not find or use target Discord channel"⟩

/-- `res.status(500).json(...)` from the catch block around channel
fetch and send (line 186). -/
def sendErrorResponse : HttpResponse :=
  ⟨500, "Internal Server Error: Failed to send Discord notification"⟩

/-- `res.status(200).json(...)` on successful delivery (line 183). -/
def successResponse : HttpResponse :=
  ⟨200, "Notification sent successfully"⟩

/-- `authenticateRequest` middleware (src/index.ts lines 80-97): `none`
means the middleware called `next()` (the request proceeds); `some r`
means it wrote response `r` and stopped. -/
def authenticateRequest (secret : String) (authHeader : Option String) :
    Option HttpResponse :=
  match authHeader with
  | none => some unauthorizedResponse
  | some h =>
    if h == "" || !(jsStartsWith h "Bearer ") then
      some unauthorizedResponse
    else if (jsSplitSpace h).get? 1 = some secret then
      none
    else
      some forbiddenResponse

/-- A multer in-memory uploaded file (`req.file`): original filename
(empty string when the upload carried none), raw bytes, size, MIME
type. -/
structure UploadedFile where
  originalname : String
  buffer : List Nat
  size : Nat
  mimetype : String
  deriving DecidableEq, Repr

/-- The string fields the handler destructures from the parsed
`jsonData` object; a missing (or non-string, hence falsy for this
handler's checks) property is `none`. -/
structure Payload where
  userName : Option String
  achievementName : Option String
  achievementDescription : Option String
  iconSource : Option String
  deriving DecidableEq, Repr

/-- An inbound `POST /notify-achievement` request as the middleware
chain exposes it: Authorization header, `jsonData` multipart text
field, optional `achievementImageFile` upload. -/
structure NotifyRequest where
  authorization : Option String
  jsonData : Option String
  file : Option UploadedFile
  deriving DecidableEq, Repr

/-- A Discord embed as the handler builds it (`EmbedBuilder`, lines
152-176): each setter populates one slot. `image` and `thumbnail` are
distinct embed slots (`setImage` vs `setThumbnail`). -/
structure Embed where
  color : Option String
  title : Option String
  description : Option String
  fields : List (String × String)
  hasTimestamp : Bool
  image : Option String
  thumbnail : Option String
  deriving DecidableEq, Repr

/-- An `AttachmentBuilder` value: assigned name plus file bytes. -/
structure DiscordAttachment where
  name : String
  buffer : List Nat
  deriving DecidableEq, Repr

/-- The single `channel.send({ embeds, files })` call (line 180). -/
structure SendCall where
  embeds : List Embed
  files : List DiscordAttachment
  deriving DecidableEq, Repr

/-- What one request produced: the HTTP response, whether
`client.channels.fetch` was invoked, and the send call handed to the
channel (`some` even when the transport then errored; `none` when no
send was attempted). -/
structure Outcome where
  response : HttpResponse
  channelFetched : Bool
  send : Option SendCall
  deriving DecidableEq, Repr

/-- What `client.channels.fetch(TARGET_CHANNEL_ID)` resolves to. -/
inductive FetchedChannel
  | textChannel
  | otherChannel
  deriving DecidableEq, Repr

/-- Outcome of the channel fetch: resolved to a (possibly null)
channel, or the promise rejected with an error message. -/
inductive FetchOutcome
  | resolved : Option FetchedChannel → FetchOutcome
  | threw : String → FetchOutcome
  deriving DecidableEq, Repr

/-- The behaviour of the external discord.js collaborator during one
request: the channel-fetch outcome and the send outcome. -/
structure DiscordEnv where
  fetch : FetchOutcome
  sendOutcome : Except String Unit

/-- Lines 111-119: `if (!req.body.jsonData) throw ...;
payload = JSON.parse(req.body.jsonData)`. `none` means the catch block
fires (missing or empty field, or `JSON.parse` threw). This coarse
model assumes the parse result is destructurable; it cannot represent
`JSON.parse` returning `null`, whose destructure at line 124 throws
outside the try/catch — see `decodeJs` below for the refinement that
does. Statements over this model therefore hypothesize a
destructurable payload. -/
def decodePayload (parseJson : String → Option Payload)
    (req : NotifyRequest) : Option Payload :=
  match req.jsonData with
  | none => none
  | some s => if s == "" then none else parseJson s

/-- Line 166: `uploadedFile.originalname || `achievement-${achievementName}.png``. -/
def attachmentName (f : UploadedFile) (achievementName : String) : String :=
  if f.originalname != "" then f.originalname
  else "achievement-" ++ achievementName ++ ".png"

/-- The fixed embed title set at line 154. -/
def embedTitle : String := "🏆 Achievement Unlocked! 🎉"

/-- The description template of line 155, interpolated. -/
def embedDescription (userName achievementName : String) : String :=
  "**" ++ userName ++ "** has unlocked the achievement: **" ++
    achievementName ++ "**!"

/-- Lines 152-156: the `EmbedBuilder` chain `setColor / setTitle /
setDescription / setTimestamp`. -/
def baseEmbed (userName achievementName : String) : Embed :=
  { color := some "#00FF00"
    title := some embedTitle
    description := some (embedDescription userName achievementName)
    fields := []
    hasTimestamp := true
    image := none
    thumbnail := none }

/-- Lines 158-160: `if (achievementDescription)
embed.addFields({ name: 'Description', value: achievementDescription })`. -/
def withDescEmbed (userName achievementName : String)
    (achievementDescription : Option String) : Embed :=
  if truthy achievementDescription then
    { baseEmbed userName achievementName with
        fields := (baseEmbed userName achievementName).fields ++
          [("Description", achievementDescription.getD "")] }
  else baseEmbed userName achievementName

/-- Lines 152-176: build the embed and the files-to-attach list from
the validated payload fields and the optional upload. -/
def buildMessage (userName achievementName : String)
    (achievementDescription iconSource : Option String)
    (uploadedFile : Option UploadedFile) : Embed × List DiscordAttachment :=
  let withDesc : Embed :=
    withDescEmbed userName achievementName achievementDescription
  match uploadedFile with
  | some f =>
    let name := attachmentName f achievementName
    ({ withDesc with image := some ("attachment://" ++ name) },
      [⟨name, f.buffer⟩])
  | none =>
    match iconSource with
    | some url =>
      if url != "" &&
          (jsStartsWith url "http://" || jsStartsWith url "https://") then
        ({ withDesc with thumbnail := some url }, [])
      else (withDesc, [])
    | none => (withDesc, [])

/-- The `POST /notify-achievement` handler body (lines 102-188), which
runs after the authentication middleware: readiness gate, payload
decode and validation, channel fetch, embed construction, send, error
mapping. -/
def notifyAchievement (discordReady : Bool) (env : DiscordEnv)
    (parseJson : String → Option Payload) (req : NotifyRequest) : Outcome :=
  if !discordReady then
    ⟨notReadyResponse, false, none⟩
  else
    match decodePayload parseJson req with
    | none => ⟨badJsonResponse, false, none⟩
    | some payload =>
      if !(truthy payload.userName) || !(truthy payload.achievementName) then
        ⟨missingFieldsResponse, false, none⟩
      else
        let userName := payload.userName.getD ""
        let achievementName := payload.achievementName.getD ""
        match env.fetch with
        | .threw _ => ⟨sendErrorResponse, true, none⟩
        | .resolved none => ⟨channelErrorResponse, true, none⟩
        | .resolved (some .otherChannel) => ⟨channelErrorResponse, true, none⟩
        | .resolved (some .textChannel) =>
          let built := buildMessage userName achievementName
            payload.achievementDescription payload.iconSource req.file
          let call : SendCall := ⟨[built.1], built.2⟩
          match env.sendOutcome with
          | .error _ => ⟨sendErrorResponse, true, some call⟩
          | .ok _ => ⟨successResponse, true, some call⟩

/-- The full route: `app.post('/notify-achievement',
authenticateRequest, upload.single(...), handler)` — the middleware
chain composed with the handler body. -/
def handleRequest (secret : String) (discordReady : Bool) (env : DiscordEnv)
    (parseJson : String → Option Payload) (req : NotifyRequest) : Outcome :=
  match authenticateRequest secret req.authorization with
  | some resp => ⟨resp, false, none⟩
  | none => notifyAchievement discordReady env parseJson req

/-! ## Refined model of the parse-and-destructure stage

`decodePayload` above identifies only two outcomes of lines 111-119
(`JSON.parse` threw vs. produced a destructurable value). That is too
coarse for one input class: `JSON.parse("null")` succeeds and returns
`null`, and the destructuring `const { userName, ... } = payload` at
line 124 sits *outside* the try/catch, so it throws a TypeError that
escapes the async handler — no HTTP response is written at all. The
definitions below refine the model so that this path is
representable. -/

/-- A JavaScript value as returned by a successful `JSON.parse`:
either `null`, or any other value (object, array, string, number,
boolean), for which the four property reads at line 124 succeed and
yield the given optional string fields (`none` for a property that is
absent or not a truthy-relevant string). Only `null` makes the
destructuring throw; `JSON.parse` never returns `undefined`. -/
inductive JsValue
  | jsNull
  | nonNull (fields : Payload)
  deriving DecidableEq, Repr

/-- Outcome of lines 111-131 in the refined model. -/
inductive DecodeJsResult
  | badJson
  | destructureThrew
  | missingFields
  | ok (payload : Payload)
  deriving DecidableEq, Repr

/-- Lines 111-131, refined: missing/empty `jsonData` or a
`JSON.parse` throw hits the catch block (→ the 400 bad-json response);
a parse result of `null` makes line 124 throw outside the try/catch
(`destructureThrew` — the handler writes no response); otherwise the
destructured fields are checked for truthiness (line 127). -/
def decodeJs (parseJs : String → Option JsValue)
    (req : NotifyRequest) : DecodeJsResult :=
  match req.jsonData with
  | none => .badJson
  | some s =>
    if s == "" then .badJson
    else
      match parseJs s with
      | none => .badJson
      | some .jsNull => .destructureThrew
      | some (.nonNull fields) =>
        if !(truthy fields.userName) || !(truthy fields.achievementName)
        then .missingFields
        else .ok fields

/-- The handler body of lines 102-188 over the refined parse model.
`none` means the handler threw without writing any HTTP response (the
unhandled rejection of the line-124 destructure of `null`); everywhere
else this agrees with `notifyAchievement`. -/
def notifyAchievementJs (discordReady : Bool) (env : DiscordEnv)
    (parseJs : String → Option JsValue) (req : NotifyRequest) :
    Option Outcome :=
  if !discordReady then
    some ⟨notReadyResponse, false, none⟩
  else
    match decodeJs parseJs req with
    | .badJson => some ⟨badJsonResponse, false, none⟩
    | .destructureThrew => none
    | .missingFields => some ⟨missingFieldsResponse, false, none⟩
    | .ok payload =>
      let userName := payload.userName.getD ""
      let achievementName := payload.achievementName.getD ""
      match env.fetch with
      | .threw _ => some ⟨sendErrorResponse, true, none⟩
      | .resolved none => some ⟨channelErrorResponse, true, none⟩
      | .resolved (some .otherChannel) =>
        some ⟨channelErrorResponse, true, none⟩
      | .resolved (some .textChannel) =>
        let built := buildMessage userName achievementName
          payload.achievementDescription payload.iconSource req.file
        let call : SendCall := ⟨[built.1], built.2⟩
        match env.sendOutcome with
        | .error _ => some ⟨sendErrorResponse, true, some call⟩
        | .ok _ => some ⟨successResponse, true, some call⟩

/-- The composed route over the refined parse model. -/
def handleRequestJs (secret : String) (discordReady : Bool)
    (env : DiscordEnv) (parseJs : String → Option JsValue)
    (req : NotifyRequest) : Option Outcome :=
  match authenticateRequest secret req.authorization with
  | some resp => some ⟨resp, false, none⟩
  | none => notifyAchievementJs discordReady env parseJs req

/-! ## Helper lemmas about the JavaScript string primitives -/

theorem data_append (s t : String) : (s ++ t).data = s.data ++ t.data := rfl

theorem mk_data (s : String) : String.mk s.data = s := rfl

theorem splitChars_no_space (cs : List Char) (h : ' ' ∉ cs) :
    splitChars cs = [cs] := by
  induction cs with
  | nil => rfl
  | cons c cs ih =>
    simp only [List.mem_cons, not_or] at h
    simp only [splitChars]
    rw [if_neg (fun hc => h.1 hc.symm), ih h.2]

theorem splitChars_append_space (xs ys : List Char) (h : ' ' ∉ xs) :
    splitChars (xs ++ ' ' :: ys) = xs :: splitChars ys := by
  induction xs with
  | nil => simp [splitChars]
  | cons c xs ih =>
    simp only [List.mem_cons, not_or] at h
    simp only [List.cons_append, splitChars]
    rw [if_neg (fun hc => h.1 hc.symm), List.append_eq, ih h.2]

theorem isPrefixOf_self_append (l t : List Char) :
    l.isPrefixOf (l ++ t) = true := by
  induction l with
  | nil => simp [List.isPrefixOf]
  | cons c l ih => simp [List.isPrefixOf, ih]

theorem jsStartsWith_bearer (t : String) :
    jsStartsWith ("Bearer " ++ t) "Bearer " = true := by
  unfold jsStartsWith
  rw [data_append]
  exact isPrefixOf_self_append _ _

theorem bearer_append_ne_empty (t : String) :
    (("Bearer " ++ t) == "") = false := by
  apply beq_eq_false_iff_ne.mpr
  intro heq
  have hdata : ("Bearer " ++ t).data = ("" : String).data :=
    congrArg String.data heq
  rw [data_append] at hdata
  simp at hdata

theorem jsSplitSpace_bearer (t : String) (h : ' ' ∉ t.data) :
    jsSplitSpace ("Bearer " ++ t) = ["Bearer", t] := by
  unfold jsSplitSpace
  have h1 : ("Bearer " ++ t).data = "Bearer".data ++ (' ' :: t.data) := by
    rw [data_append,
      show ("Bearer " : String).data = "Bearer".data ++ [' '] from by decide,
      List.append_assoc]
    rfl
  rw [h1, splitChars_append_space _ _ (by decide), splitChars_no_space _ h]
  simp [mk_data]

theorem jsSplitSpace_bearer_two (t r : String) (ht : ' ' ∉ t.data) :
    (jsSplitSpace ("Bearer " ++ t ++ " " ++ r))[1]? = some t := by
  unfold jsSplitSpace
  have h1 : ("Bearer " ++ t ++ " " ++ r).data
      = "Bearer".data ++ (' ' :: (t.data ++ (' ' :: r.data))) := by
    rw [data_append, data_append, data_append,
      show ("Bearer " : String).data = "Bearer".data ++ [' '] from by decide,
      show (" " : String).data = [' '] from by decide]
    simp [List.append_assoc]
  rw [h1, splitChars_append_space _ _ (by decide),
    splitChars_append_space _ _ ht]
  simp [mk_data]

theorem jsStartsWith_bearer_two (t r : String) :
    jsStartsWith ("Bearer " ++ t ++ " " ++ r) "Bearer " = true := by
  unfold jsStartsWith
  rw [data_append, data_append, data_append, List.append_assoc,
    List.append_assoc]
  exact isPrefixOf_self_append _ _

theorem bearer_two_ne_empty (t r : String) :
    (("Bearer " ++ t ++ " " ++ r) == "") = false := by
  apply beq_eq_false_iff_ne.mpr
  intro heq
  have hdata : ("Bearer " ++ t ++ " " ++ r).data = ("" : String).data :=
    congrArg String.data heq
  rw [data_append, data_append, data_append] at hdata
  simp at hdata

theorem str_append_assoc (a b c : String) : a ++ b ++ c = a ++ (b ++ c) := by
  show String.mk ((a.data ++ b.data) ++ c.data)
    = String.mk (a.data ++ (b.data ++ c.data))
  exact congrArg String.mk (List.append_assoc a.data b.data c.data)

/-! ## Helper lemmas about the handler and message construction -/

/-- Once the readiness gate passes and the payload is valid, the
handler outcome is determined by the channel fetch and send results. -/
theorem notify_valid_reduce (env : DiscordEnv)
    (parseJson : String → Option Payload) (req : NotifyRequest)
    (payload : Payload) (u a : String)
    (hp : decodePayload parseJson req = some payload)
    (hu : payload.userName = some u) (hu0 : u ≠ "")
    (ha : payload.achievementName = some a) (ha0 : a ≠ "") :
    notifyAchievement true env parseJson req =
      match env.fetch with
      | .threw _ => ⟨sendErrorResponse, true, none⟩
      | .resolved none => ⟨channelErrorResponse, true, none⟩
      | .resolved (some .otherChannel) => ⟨channelErrorResponse, true, none⟩
      | .resolved (some .textChannel) =>
        let built := buildMessage u a payload.achievementDescription
          payload.iconSource req.file
        match env.sendOutcome with
        | .error _ => ⟨sendErrorResponse, true, some ⟨[built.1], built.2⟩⟩
        | .ok _ => ⟨successResponse, true, some ⟨[built.1], built.2⟩⟩ := by
  unfold notifyAchievement
  rw [hp]
  simp [truthy, hu, ha, hu0, ha0]

/-- On the fully successful path up to the send call, the send carries
exactly the built embed and files. -/
theorem notify_send_shape (env : DiscordEnv)
    (parseJson : String → Option Payload) (req : NotifyRequest)
    (payload : Payload) (u a : String)
    (hp : decodePayload parseJson req = some payload)
    (hu : payload.userName = some u) (hu0 : u ≠ "")
    (ha : payload.achievementName = some a) (ha0 : a ≠ "")
    (hch : env.fetch = .resolved (some .textChannel)) :
    (notifyAchievement true env parseJson req).send =
      some ⟨[(buildMessage u a payload.achievementDescription
          payload.iconSource req.file).1],
        (buildMessage u a payload.achievementDescription
          payload.iconSource req.file).2⟩ := by
  rw [notify_valid_reduce env parseJson req payload u a hp hu hu0 ha ha0, hch]
  cases hsend : env.sendOutcome <;> simp

theorem withDescEmbed_title (u a : String) (d : Option String) :
    (withDescEmbed u a d).title = some embedTitle := by
  unfold withDescEmbed baseEmbed
  split <;> rfl

theorem withDescEmbed_description (u a : String) (d : Option String) :
    (withDescEmbed u a d).description = some (embedDescription u a) := by
  unfold withDescEmbed baseEmbed
  split <;> rfl

theorem withDescEmbed_fields (u a : String) (d : Option String) :
    (withDescEmbed u a d).fields
      = if truthy d then [("Description", d.getD "")] else [] := by
  unfold withDescEmbed baseEmbed
  split <;> rfl

theorem withDescEmbed_image (u a : String) (d : Option String) :
    (withDescEmbed u a d).image = none := by
  unfold withDescEmbed baseEmbed
  split <;> rfl

theorem withDescEmbed_thumbnail (u a : String) (d : Option String) :
    (withDescEmbed u a d).thumbnail = none := by
  unfold withDescEmbed baseEmbed
  split <;> rfl

theorem buildMessage_title (u a : String) (d i : Option String)
    (uf : Option UploadedFile) :
    (buildMessage u a d i uf).1.title = some embedTitle := by
  cases uf with
  | some f => simp [buildMessage, withDescEmbed_title]
  | none =>
    cases i with
    | none => simp [buildMessage, withDescEmbed_title]
    | some url =>
      simp only [buildMessage]
      split <;> simp [withDescEmbed_title]

theorem buildMessage_description (u a : String) (d i : Option String)
    (uf : Option UploadedFile) :
    (buildMessage u a d i uf).1.description
      = some (embedDescription u a) := by
  cases uf with
  | some f => simp [buildMessage, withDescEmbed_description]
  | none =>
    cases i with
    | none => simp [buildMessage, withDescEmbed_description]
    | some url =>
      simp only [buildMessage]
      split <;> simp [withDescEmbed_description]

theorem buildMessage_fields (u a : String) (d i : Option String)
    (uf : Option UploadedFile) :
    (buildMessage u a d i uf).1.fields
      = if truthy d then [("Description", d.getD "")] else [] := by
  cases uf with
  | some f => simp [buildMessage, withDescEmbed_fields]
  | none =>
    cases i with
    | none => simp [buildMessage, withDescEmbed_fields]
    | some url =>
      simp only [buildMessage]
      split <;> simp [withDescEmbed_fields]

theorem buildMessage_file_image (u a : String) (d i : Option String)
    (f : UploadedFile) :
    (buildMessage u a d i (some f)).1.image
      = some ("attachment://" ++ attachmentName f a) := by
  simp [buildMessage]

theorem buildMessage_file_thumbnail (u a : String) (d i : Option String)
    (f : UploadedFile) :
    (buildMessage u a d i (some f)).1.thumbnail = none := by
  simp [buildMessage, withDescEmbed_thumbnail]

theorem buildMessage_file_files (u a : String) (d i : Option String)
    (f : UploadedFile) :
    (buildMessage u a d i (some f)).2
      = [⟨attachmentName f a, f.buffer⟩] := by
  simp [buildMessage]

theorem buildMessage_nofile_files (u a : String) (d i : Option String) :
    (buildMessage u a d i none).2 = [] := by
  cases i with
  | none => rfl
  | some url =>
    simp only [buildMessage]
    split <;> rfl

theorem buildMessage_nofile_image (u a : String) (d i : Option String) :
    (buildMessage u a d i none).1.image = none := by
  cases i with
  | none => simp [buildMessage, withDescEmbed_image]
  | some url =>
    simp only [buildMessage]
    split <;> simp [withDescEmbed_image]

theorem buildMessage_icon_thumbnail (u a : String) (d : Option String)
    (url : String)
    (hpre : (jsStartsWith url "http://" || jsStartsWith url "https://")
      = true) :
    (buildMessage u a d (some url) none).1.thumbnail = some url := by
  have hurl : (url != "") = true := by
    rw [bne_iff_ne]
    intro h0
    subst h0
    exact absurd hpre (by decide)
  simp [buildMessage, hurl, hpre]

theorem buildMessage_icon_invalid_thumbnail (u a : String)
    (d : Option String) (url : String)
    (hpre : (jsStartsWith url "http://" || jsStartsWith url "https://")
      = false) :
    (buildMessage u a d (some url) none).1.thumbnail = none := by
  simp [buildMessage, hpre, withDescEmbed_thumbnail]

theorem buildMessage_noicon_thumbnail (u a : String) (d : Option String) :
    (buildMessage u a d none none).1.thumbnail = none := by
  simp [buildMessage, withDescEmbed_thumbnail]

/-! ## Claim theorems -/

/-- Claim C6: a missing Authorization header, or one not of the form
`Bearer <token>`, yields 401; a well-formed `Bearer <token>` header
whose token differs from the configured secret yields 403; the request
proceeds past the gate (the middleware calls `next()`, i.e. the result
is `none`) exactly when the token equals the secret; and the 401 and
403 outcomes are distinct. -/
theorem auth_taxonomy (secret : String) :
    authenticateRequest secret none = some unauthorizedResponse ∧
    (∀ h, jsStartsWith h "Bearer " = false →
      authenticateRequest secret (some h) = some unauthorizedResponse) ∧
    (∀ t, ' ' ∉ t.data → t ≠ secret →
      authenticateRequest secret (some ("Bearer " ++ t)) =
        some forbiddenResponse) ∧
    (∀ t, ' ' ∉ t.data →
      (authenticateRequest secret (some ("Bearer " ++ t)) = none ↔
        t = secret)) ∧
    unauthorizedResponse.status = 401 ∧ forbiddenResponse.status = 403 ∧
    unauthorizedResponse ≠ forbiddenResponse := by
  refine ⟨rfl, ?_, ?_, ?_, rfl, rfl, by decide⟩
  · intro h hsw
    simp [authenticateRequest, hsw]
  · intro t hsp hne
    simp [authenticateRequest, jsStartsWith_bearer, bearer_append_ne_empty,
      jsSplitSpace_bearer t hsp, hne]
  · intro t hsp
    by_cases heq : t = secret
    · subst heq
      simp [authenticateRequest, jsStartsWith_bearer,
        bearer_append_ne_empty, jsSplitSpace_bearer t hsp]
    · simp [authenticateRequest, jsStartsWith_bearer,
        bearer_append_ne_empty, jsSplitSpace_bearer t hsp, heq]

/-- Witness for C6 at concrete inputs: no header → 401; a malformed
header → 401; `Bearer wrong` against secret `s3cr3t` → 403;
`Bearer s3cr3t` → proceeds. -/
theorem auth_taxonomy_witness :
    authenticateRequest "s3cr3t" none = some unauthorizedResponse ∧
    authenticateRequest "s3cr3t" (some "Token abc") =
      some unauthorizedResponse ∧
    authenticateRequest "s3cr3t" (some ("Bearer " ++ "wrong")) =
      some forbiddenResponse ∧
    authenticateRequest "s3cr3t" (some ("Bearer " ++ "s3cr3t")) = none :=
  ⟨(auth_taxonomy "s3cr3t").1,
    (auth_taxonomy "s3cr3t").2.1 "Token abc" (by decide),
    (auth_taxonomy "s3cr3t").2.2.1 "wrong" (by decide) (by decide),
    ((auth_taxonomy "s3cr3t").2.2.2.1 "s3cr3t" (by decide)).mpr rfl⟩

/-- Claim C1: when the request carries both a decoded binary
attachment and an `iconSource` value, the sent embed's image slot
references the attached file (`attachment://<name>`) and the
thumbnail slot — the only slot the URL fallback ever writes — stays
empty: the attachment strictly takes priority and at most one of the
two visuals is used. -/
theorem attachment_takes_priority (env : DiscordEnv)
    (parseJson : String → Option Payload) (req : NotifyRequest)
    (payload : Payload) (u a url : String) (f : UploadedFile)
    (hp : decodePayload parseJson req = some payload)
    (hu : payload.userName = some u) (hu0 : u ≠ "")
    (ha : payload.achievementName = some a) (ha0 : a ≠ "")
    (hf : req.file = some f)
    (_hicon : payload.iconSource = some url)
    (hch : env.fetch = .resolved (some .textChannel)) :
    ∃ e files, (notifyAchievement true env parseJson req).send
        = some ⟨[e], files⟩ ∧
      e.image = some ("attachment://" ++ attachmentName f a) ∧
      e.thumbnail = none := by
  rw [notify_send_shape env parseJson req payload u a hp hu hu0 ha ha0 hch,
    hf]
  exact ⟨_, _, rfl, buildMessage_file_image u a _ _ f,
    buildMessage_file_thumbnail u a _ _ f⟩

/-- Witness for C1: a request with a `trophy.png` upload and an
`iconSource` URL sends an embed whose image is
`attachment://trophy.png` and whose thumbnail is empty. -/
theorem attachment_takes_priority_witness :
    ∃ e files,
      (notifyAchievement true ⟨.resolved (some .textChannel), .ok ()⟩
        (fun _ => some ⟨some "Alice", some "Dragon Slayer", none,
          some "https://img.example/icon.png"⟩)
        ⟨some "Bearer s3cr3t", some "payload",
          some ⟨"trophy.png", [137, 80], 2048, "image/png"⟩⟩).send
        = some ⟨[e], files⟩ ∧
      e.image = some ("attachment://" ++
        attachmentName ⟨"trophy.png", [137, 80], 2048, "image/png"⟩
          "Dragon Slayer") ∧
      e.thumbnail = none :=
  attachment_takes_priority _ _ _ _ "Alice" "Dragon Slayer"
    "https://img.example/icon.png" ⟨"trophy.png", [137, 80], 2048, "image/png"⟩
    rfl rfl (by decide) rfl (by decide) rfl rfl rfl

/-- Claim C2: every message that reaches construction has the fixed
celebratory title, a description interpolating `userName` and
`achievementName` into the fixed template (hence containing both), a
labeled `Description` field exactly when `achievementDescription` is
present and non-empty, and — with no attachment and no `iconSource` —
no image and no thumbnail set. -/
theorem message_construction (env : DiscordEnv)
    (parseJson : String → Option Payload) (req : NotifyRequest)
    (payload : Payload) (u a : String)
    (hp : decodePayload parseJson req = some payload)
    (hu : payload.userName = some u) (hu0 : u ≠ "")
    (ha : payload.achievementName = some a) (ha0 : a ≠ "")
    (hch : env.fetch = .resolved (some .textChannel)) :
    ∃ e files, (notifyAchievement true env parseJson req).send
        = some ⟨[e], files⟩ ∧
      e.title = some embedTitle ∧
      e.description = some (embedDescription u a) ∧
      (∃ pre post, embedDescription u a = pre ++ u ++ post) ∧
      (∃ pre post, embedDescription u a = pre ++ a ++ post) ∧
      e.fields = (if truthy payload.achievementDescription then
        [("Description", payload.achievementDescription.getD "")]
        else []) ∧
      (req.file = none → payload.iconSource = none →
        e.image = none ∧ e.thumbnail = none) := by
  rw [notify_send_shape env parseJson req payload u a hp hu hu0 ha ha0 hch]
  refine ⟨_, _, rfl, buildMessage_title u a _ _ _,
    buildMessage_description u a _ _ _,
    ⟨"**", "** has unlocked the achievement: **" ++ a ++ "**!", ?_⟩,
    ⟨"**" ++ u ++ "** has unlocked the achievement: **", "**!", rfl⟩,
    buildMessage_fields u a _ _ _, ?_⟩
  · simp [embedDescription, str_append_assoc]
  · intro hf hicon
    rw [hf, hicon]
    exact ⟨buildMessage_nofile_image u a _ _,
      buildMessage_noicon_thumbnail u a _⟩

/-- Witness for C2 at the spec's end-to-end scenario: `Alice` /
`Dragon Slayer`, no description, no icon, no file. -/
theorem message_construction_witness :
    ∃ e files,
      (notifyAchievement true ⟨.resolved (some .textChannel), .ok ()⟩
        (fun _ => some ⟨some "Alice", some "Dragon Slayer", none, none⟩)
        ⟨some "Bearer s3cr3t", some "payload", none⟩).send
        = some ⟨[e], files⟩ ∧
      e.title = some embedTitle ∧
      e.description = some (embedDescription "Alice" "Dragon Slayer") ∧
      (∃ pre post,
        embedDescription "Alice" "Dragon Slayer" = pre ++ "Alice" ++ post) ∧
      (∃ pre post,
        embedDescription "Alice" "Dragon Slayer"
          = pre ++ "Dragon Slayer" ++ post) ∧
      e.fields = (if truthy (none : Option String) then
        [("Description", (none : Option String).getD "")] else []) ∧
      ((none : Option UploadedFile) = none → (none : Option String) = none →
        e.image = none ∧ e.thumbnail = none) :=
  message_construction _ _ _ ⟨some "Alice", some "Dragon Slayer", none, none⟩
    "Alice" "Dragon Slayer" rfl rfl (by decide) rfl (by decide) rfl

/-- Claim C8: with a decoded binary attachment, the attached file's
name is the upload's original filename when supplied and otherwise
`achievement-<achievementName>.png`, and the embed's image slot
references the attached file by that name. -/
theorem attachment_naming (env : DiscordEnv)
    (parseJson : String → Option Payload) (req : NotifyRequest)
    (payload : Payload) (u a : String) (f : UploadedFile)
    (hp : decodePayload parseJson req = some payload)
    (hu : payload.userName = some u) (hu0 : u ≠ "")
    (ha : payload.achievementName = some a) (ha0 : a ≠ "")
    (hf : req.file = some f)
    (hch : env.fetch = .resolved (some .textChannel)) :
    ∃ e, (notifyAchievement true env parseJson req).send
        = some ⟨[e], [⟨attachmentName f a, f.buffer⟩]⟩ ∧
      e.image = some ("attachment://" ++ attachmentName f a) ∧
      (f.originalname ≠ "" → attachmentName f a = f.originalname) ∧
      (f.originalname = "" →
        attachmentName f a = "achievement-" ++ a ++ ".png") := by
  rw [notify_send_shape env parseJson req payload u a hp hu hu0 ha ha0 hch,
    hf]
  refine ⟨(buildMessage u a payload.achievementDescription
      payload.iconSource (some f)).1, ?_,
    buildMessage_file_image u a payload.achievementDescription
      payload.iconSource f, ?_, ?_⟩
  · rw [buildMessage_file_files]
  · intro h0
    simp [attachmentName, h0]
  · intro h0
    simp [attachmentName, h0]

/-- Witness for C8 at the spec's scenario: a 2 KB PNG named
`trophy.png` is attached under that very name, and the image slot
references `attachment://trophy.png`. -/
theorem attachment_naming_witness :
    ∃ e,
      (notifyAchievement true ⟨.resolved (some .textChannel), .ok ()⟩
        (fun _ => some ⟨some "Alice", some "Dragon Slayer", none, none⟩)
        ⟨some "Bearer s3cr3t", some "payload",
          some ⟨"trophy.png", [137, 80], 2048, "image/png"⟩⟩).send
        = some ⟨[e],
          [⟨attachmentName ⟨"trophy.png", [137, 80], 2048, "image/png"⟩
              "Dragon Slayer",
            [137, 80]⟩]⟩ ∧
      e.image = some ("attachment://" ++
        attachmentName ⟨"trophy.png", [137, 80], 2048, "image/png"⟩
          "Dragon Slayer") ∧
      (("trophy.png" : String) ≠ "" →
        attachmentName ⟨"trophy.png", [137, 80], 2048, "image/png"⟩
          "Dragon Slayer" = "trophy.png") ∧
      (("trophy.png" : String) = "" →
        attachmentName ⟨"trophy.png", [137, 80], 2048, "image/png"⟩
          "Dragon Slayer" = "achievement-" ++ "Dragon Slayer" ++ ".png") :=
  attachment_naming _ _ _ ⟨some "Alice", some "Dragon Slayer", none, none⟩
    "Alice" "Dragon Slayer" ⟨"trophy.png", [137, 80], 2048, "image/png"⟩
    rfl rfl (by decide) rfl (by decide) rfl rfl

/-- Claim C9: the gate compares only the second space-separated
segment of the header against the secret, so `Bearer <secret> <extra>`
passes the gate even though content follows the token. -/
theorem auth_accepts_extra_segments (secret extra : String)
    (h : ' ' ∉ secret.data) :
    authenticateRequest secret
      (some ("Bearer " ++ secret ++ " " ++ extra)) = none := by
  simp [authenticateRequest, jsStartsWith_bearer_two, bearer_two_ne_empty,
    jsSplitSpace_bearer_two secret extra h]

/-- Counterexample for C3 as stated: with no attachment and
`iconSource = "https://img.example/icon.png"` (which passes the prefix
check), the code calls `setThumbnail`, not `setImage` — the embed's
image slot stays empty and the URL lands in the thumbnail slot, so
"the message's image slot is set to that URL" is false. -/
theorem icon_image_slot_counterexample :
    ∃ e, (notifyAchievement true ⟨.resolved (some .textChannel), .ok ()⟩
        (fun _ => some ⟨some "Alice", some "Dragon Slayer", none,
          some "https://img.example/icon.png"⟩)
        ⟨some "Bearer s3cr3t", some "payload", none⟩).send
        = some ⟨[e], []⟩ ∧
      e.image = none ∧
      e.thumbnail = some "https://img.example/icon.png" :=
  ⟨_, rfl, rfl, rfl⟩

/-- Claim C3 (amended: the URL goes into the embed's *thumbnail* slot,
set via `setThumbnail`, rather than the image slot): with no binary
attachment, an `iconSource` passing the `http(s)://` prefix check is
placed in the thumbnail slot and no file is attached; if the prefix
check fails (or there is no `iconSource`), neither the image slot nor
the thumbnail slot is set. -/
theorem icon_fallback (env : DiscordEnv)
    (parseJson : String → Option Payload) (req : NotifyRequest)
    (payload : Payload) (u a : String)
    (hp : decodePayload parseJson req = some payload)
    (hu : payload.userName = some u) (hu0 : u ≠ "")
    (ha : payload.achievementName = some a) (ha0 : a ≠ "")
    (hf : req.file = none)
    (hch : env.fetch = .resolved (some .textChannel)) :
    ∃ e, (notifyAchievement true env parseJson req).send
        = some ⟨[e], []⟩ ∧
      e.image = none ∧
      (∀ url, payload.iconSource = some url →
        (jsStartsWith url "http://" || jsStartsWith url "https://") = true →
        e.thumbnail = some url) ∧
      (∀ url, payload.iconSource = some url →
        (jsStartsWith url "http://" || jsStartsWith url "https://") = false →
        e.thumbnail = none) ∧
      (payload.iconSource = none → e.thumbnail = none) := by
  rw [notify_send_shape env parseJson req payload u a hp hu hu0 ha ha0 hch,
    hf]
  refine ⟨(buildMessage u a payload.achievementDescription
      payload.iconSource none).1, ?_, buildMessage_nofile_image u a _ _,
    ?_, ?_, ?_⟩
  · rw [buildMessage_nofile_files]
  · intro url hi hpre
    rw [hi]
    exact buildMessage_icon_thumbnail u a _ url hpre
  · intro url hi hpre
    rw [hi]
    exact buildMessage_icon_invalid_thumbnail u a _ url hpre
  · intro hi
    rw [hi]
    exact buildMessage_noicon_thumbnail u a _

/-- Witness for the amended C3: `iconSource = "ftp://evil"` fails the
prefix check and the sent embed carries neither image nor thumbnail. -/
theorem icon_fallback_witness :
    ∃ e, (notifyAchievement true ⟨.resolved (some .textChannel), .ok ()⟩
        (fun _ => some ⟨some "Alice", some "Dragon Slayer", none,
          some "ftp://evil"⟩)
        ⟨some "Bearer s3cr3t", some "payload", none⟩).send
        = some ⟨[e], []⟩ ∧
      e.image = none ∧ e.thumbnail = none := by
  obtain ⟨e, hsend, himg, _, hinv, _⟩ :=
    icon_fallback ⟨.resolved (some .textChannel), .ok ()⟩
      (fun _ => some ⟨some "Alice", some "Dragon Slayer", none,
        some "ftp://evil"⟩)
      ⟨some "Bearer s3cr3t", some "payload", none⟩
      ⟨some "Alice", some "Dragon Slayer", none, some "ftp://evil"⟩
      "Alice" "Dragon Slayer" rfl rfl (by decide) rfl (by decide) rfl rfl
  exact ⟨e, hsend, himg, hinv "ftp://evil" rfl (by decide)⟩

/-- Claim C4: whenever the readiness flag is false, the handler
answers 503 whatever the payload, the message-construction
environment, or the parse function — no channel fetch and no send
attempt happen. -/
theorem not_ready_rejects (env : DiscordEnv)
    (parseJson : String → Option Payload) (req : NotifyRequest) :
    notifyAchievement false env parseJson req
      = ⟨notReadyResponse, false, none⟩ ∧
    notReadyResponse.status = 503 :=
  ⟨rfl, rfl⟩

/-- Counterexample for C5 as stated, on two concrete inputs. (a) An
authenticated request with no `jsonData` receives 503, not 400, while
the Discord client is not ready — the readiness check precedes
decoding. (b) With the client ready and `jsonData = "null"`:
`JSON.parse("null")` succeeds and returns `null` (modelled by the
parse function mapping it to `jsNull`), so the parse is not a failure
and the parsed value lacks a non-empty `userName`; yet the
destructuring at line 124 — outside the try/catch — throws, the
handler writes no response at all (`none`), and in particular no 400
is sent. -/
theorem validation_counterexample :
    authenticateRequest "s3cr3t" (some ("Bearer " ++ "s3cr3t")) = none ∧
    handleRequestJs "s3cr3t" false ⟨.resolved (some .textChannel), .ok ()⟩
        (fun _ => some .jsNull)
        ⟨some ("Bearer " ++ "s3cr3t"), none, none⟩
      = some ⟨notReadyResponse, false, none⟩ ∧
    notReadyResponse.status ≠ 400 ∧
    handleRequestJs "s3cr3t" true ⟨.resolved (some .textChannel), .ok ()⟩
        (fun _ => some .jsNull)
        ⟨some ("Bearer " ++ "s3cr3t"), some "null", none⟩
      = none :=
  ⟨by decide, by decide, by decide, by decide⟩

/-- Claim C5 (amended: scoped to a ready client — the readiness check
precedes decoding and answers 503 otherwise — and to `jsonData` that
does not parse to `null`): for every authenticated request, when the
Discord client is ready, a missing or unparseable `jsonData` yields
the 400 bad-json response and a parsed non-null value lacking a truthy
`userName` or `achievementName` yields the 400 missing-fields
response, in both cases with no channel fetch and no send; whereas
`jsonData` parsing to `null` makes the line-124 destructure throw
outside the try/catch, so the handler writes no response at all. -/
theorem validation_rejects (secret : String) (env : DiscordEnv)
    (parseJs : String → Option JsValue) (req : NotifyRequest)
    (hauth : authenticateRequest secret req.authorization = none) :
    (decodeJs parseJs req = .badJson →
      handleRequestJs secret true env parseJs req
        = some ⟨badJsonResponse, false, none⟩) ∧
    (decodeJs parseJs req = .missingFields →
      handleRequestJs secret true env parseJs req
        = some ⟨missingFieldsResponse, false, none⟩) ∧
    (decodeJs parseJs req = .destructureThrew →
      handleRequestJs secret true env parseJs req = none) ∧
    badJsonResponse.status = 400 ∧ missingFieldsResponse.status = 400 := by
  unfold handleRequestJs
  rw [hauth]
  refine ⟨?_, ?_, ?_, rfl, rfl⟩ <;>
    intro h <;> simp [notifyAchievementJs, h]

/-- Witness for the amended C5: authenticated request, ready client,
no `jsonData` field → the 400 bad-json outcome with no channel fetch
and no send. -/
theorem validation_rejects_witness :
    handleRequestJs "s3cr3t" true ⟨.resolved (some .textChannel), .ok ()⟩
        (fun _ => some .jsNull)
        ⟨some ("Bearer " ++ "s3cr3t"), none, none⟩
      = some ⟨badJsonResponse, false, none⟩ ∧
    badJsonResponse.status = 400 :=
  ⟨(validation_rejects "s3cr3t" ⟨.resolved (some .textChannel), .ok ()⟩
      (fun _ => some .jsNull) ⟨some ("Bearer " ++ "s3cr3t"), none, none⟩
      (by decide)).1 rfl,
    rfl⟩

/-- Witness for C9: `Bearer s3cr3t extra garbage` passes the gate for
secret `s3cr3t`. -/
theorem auth_accepts_extra_segments_witness :
    authenticateRequest "s3cr3t"
      (some ("Bearer " ++ "s3cr3t" ++ " " ++ "extra garbage")) = none :=
  auth_accepts_extra_segments "s3cr3t" "extra garbage" (by decide)

/-- Claim C7: for a request that reaches the Dispatcher, every failure
mode — the channel fetch throwing, resolving to null, resolving to a
non-text channel, or the send call erroring — yields HTTP 500 with a
fixed body that is a constant independent of the upstream error string
(the error is never exposed to the caller). -/
theorem internal_error_fixed_body (env : DiscordEnv)
    (parseJson : String → Option Payload) (req : NotifyRequest)
    (payload : Payload) (u a : String)
    (hp : decodePayload parseJson req = some payload)
    (hu : payload.userName = some u) (hu0 : u ≠ "")
    (ha : payload.achievementName = some a) (ha0 : a ≠ "") :
    (∀ e, env.fetch = .threw e →
      (notifyAchievement true env parseJson req).response
        = sendErrorResponse) ∧
    (env.fetch = .resolved none →
      (notifyAchievement true env parseJson req).response
        = channelErrorResponse) ∧
    (env.fetch = .resolved (some .otherChannel) →
      (notifyAchievement true env parseJson req).response
        = channelErrorResponse) ∧
    (∀ e, env.fetch = .resolved (some .textChannel) →
      env.sendOutcome = .error e →
      (notifyAchievement true env parseJson req).response
        = sendErrorResponse) ∧
    sendErrorResponse.status = 500 ∧ channelErrorResponse.status = 500 := by
  rw [notify_valid_reduce env parseJson req payload u a hp hu hu0 ha ha0]
  refine ⟨?_, ?_, ?_, ?_, rfl, rfl⟩
  · intro e hfetch
    rw [hfetch]
  · intro hfetch
    rw [hfetch]
  · intro hfetch
    rw [hfetch]
  · intro e hfetch hsend
    rw [hfetch]
    simp [hsend]

/-- Witness for C7: a deleted channel (fetch resolves to null) turns
into the fixed 500 channel-error response. -/
theorem internal_error_fixed_body_witness :
    ((⟨.resolved none, .ok ()⟩ : DiscordEnv).fetch = .resolved none →
      (notifyAchievement true ⟨.resolved none, .ok ()⟩
        (fun _ => some ⟨some "Alice", some "Dragon Slayer", none, none⟩)
        ⟨some "Bearer s3cr3t", some "payload", none⟩).response
        = channelErrorResponse) ∧
    channelErrorResponse.status = 500 :=
  ⟨fun h =>
    (internal_error_fixed_body ⟨.resolved none, .ok ()⟩
      (fun _ => some ⟨some "Alice", some "Dragon Slayer", none, none⟩)
      ⟨some "Bearer s3cr3t", some "payload", none⟩
      ⟨some "Alice", some "Dragon Slayer", none, none⟩
      "Alice" "Dragon Slayer" rfl rfl (by decide) rfl (by decide)).2.1 h,
    rfl⟩

/-- Every handler outcome either left the chat service untouched or
carries status 500 or 200. -/
theorem notify_outcome_cases (discordReady : Bool) (env : DiscordEnv)
    (parseJson : String → Option Payload) (req : NotifyRequest) :
    ((notifyAchievement discordReady env parseJson req).channelFetched
        = false ∧
      (notifyAchievement discordReady env parseJson req).send = none) ∨
    ((notifyAchievement discordReady env parseJson req).response.status
        = 500 ∨
      (notifyAchievement discordReady env parseJson req).response.status
        = 200) := by
  cases discordReady with
  | false => exact Or.inl ⟨rfl, rfl⟩
  | true =>
    rcases hdp : decodePayload parseJson req with _ | payload
    · left
      simp [notifyAchievement, hdp]
    · by_cases hval : truthy payload.userName = true ∧
          truthy payload.achievementName = true
      · right
        cases hfetch : env.fetch with
        | threw e =>
          left
          simp [notifyAchievement, hdp, hval.1, hval.2, hfetch,
            sendErrorResponse]
        | resolved och =>
          cases och with
          | none =>
            left
            simp [notifyAchievement, hdp, hval.1, hval.2, hfetch,
              channelErrorResponse]
          | some ch =>
            cases ch with
            | otherChannel =>
              left
              simp [notifyAchievement, hdp, hval.1, hval.2, hfetch,
                channelErrorResponse]
            | textChannel =>
              cases hsend : env.sendOutcome with
              | error e =>
                left
                simp [notifyAchievement, hdp, hval.1, hval.2, hfetch,
                  hsend, sendErrorResponse]
              | ok v =>
                right
                simp [notifyAchievement, hdp, hval.1, hval.2, hfetch,
                  hsend, successResponse]
      · left
        have hcond : (!(truthy payload.userName)
            || !(truthy payload.achievementName)) = true := by
          rcases not_and_or.mp hval with h | h <;>
            simp [Bool.not_eq_true] at h <;> simp [h]
        simp [notifyAchievement, hdp, hcond]

/-- Claim C10: whenever the composed route answers 400, 401, 403 or
503, the chat service was never contacted: no channel fetch happened
and no send call was made. -/
theorem no_contact_on_failure (secret : String) (discordReady : Bool)
    (env : DiscordEnv) (parseJson : String → Option Payload)
    (req : NotifyRequest) :
    ((handleRequest secret discordReady env parseJson req).response.status
        = 400 ∨
      (handleRequest secret discordReady env parseJson req).response.status
        = 401 ∨
      (handleRequest secret discordReady env parseJson req).response.status
        = 403 ∨
      (handleRequest secret discordReady env parseJson req).response.status
        = 503) →
    (handleRequest secret discordReady env parseJson req).channelFetched
        = false ∧
    (handleRequest secret discordReady env parseJson req).send = none := by
  unfold handleRequest
  cases hauth : authenticateRequest secret req.authorization with
  | some r => intro _; exact ⟨rfl, rfl⟩
  | none =>
    intro hst
    have hst2 :
        (notifyAchievement discordReady env parseJson req).response.status
            = 400 ∨
          (notifyAchievement discordReady env parseJson req).response.status
            = 401 ∨
          (notifyAchievement discordReady env parseJson req).response.status
            = 403 ∨
          (notifyAchievement discordReady env parseJson req).response.status
            = 503 := hst
    show (notifyAchievement discordReady env parseJson req).channelFetched
        = false ∧
      (notifyAchievement discordReady env parseJson req).send = none
    rcases notify_outcome_cases discordReady env parseJson req with h | h5
    · exact h
    · exfalso
      rcases h5 with h5 | h5 <;> rw [h5] at hst2 <;>
        rcases hst2 with h | h | h | h <;> omega

/-- Witness for C10: a request with no Authorization header gets 401
and the chat service is untouched. -/
theorem no_contact_on_failure_witness :
    (handleRequest "s3cr3t" true ⟨.resolved (some .textChannel), .ok ()⟩
        (fun _ => none) ⟨none, none, none⟩).channelFetched = false ∧
    (handleRequest "s3cr3t" true ⟨.resolved (some .textChannel), .ok ()⟩
        (fun _ => none) ⟨none, none, none⟩).send = none :=
  no_contact_on_failure "s3cr3t" true ⟨.resolved (some .textChannel), .ok ()⟩
    (fun _ => none) ⟨none, none, none⟩ (Or.inr (Or.inl rfl))

end Farchievements
